import Mathlib

set_option maxHeartbeats 1000000

/-! # Verification of the GolfWar projectile simulation

Shallow embedding of the weapon-agnostic projectile system of
`src/claude/cannon.js` (`createProjectileSystem`, together with the shot
profile tables of `src/claude/config.js`), over exact rational arithmetic.

Modelling conventions:
* JavaScript floating-point numbers are modelled as `ℚ`.
* The JavaScript code compares Euclidean lengths (`.length()`) against
  nonnegative constants; those comparisons are embedded as the (exactly
  equivalent) comparisons of squared lengths against squared constants.
* Where the code consumes the *value* of a length (`Math.sqrt`), the
  embedding uses `Rat.sqrt`, which agrees with the real square root exactly
  when its argument is the square of a rational; every concrete input
  evaluated in the theorems below is of that form.
* Render-only effects are outside the embedded state: mesh creation and
  rotation (`rotateOnWorldAxis`), sprite/material objects, the DOM inputs
  (`parseFloat(velocityInput.value) || 20` is modelled by passing the
  resolved `velocity` and `mass` values as arguments), and weapon adapter
  visuals (`showLoadedBall`, `triggerFire`).
* `Math.random()` drift for smoke particles is modelled by a drift stream
  `mkDrift : ℕ → Vec3` supplied to `update`.
* The registered `onBallStabilizedCallback` is modelled by a Boolean
  (registered or not); the invocation of the callback during a tick is
  reported in the step result (`StepResult.notified`).
* JavaScript iterates the projectile and smoke arrays in reverse index
  order and splices removed entries; each entry is processed independently
  and relative order of survivors is preserved, so this is embedded as
  `map` plus `filter`.  Freshly spawned smoke is appended during the
  projectile pass and then aged by the same tick's smoke pass, exactly as
  in the source.
-/

/-- Three-dimensional vector over `ℚ` (embedding of `THREE.Vector3`). -/
structure Vec3 where
  x : ℚ
  y : ℚ
  z : ℚ
deriving DecidableEq, Repr

instance : Add Vec3 :=
  ⟨fun a b => ⟨a.x + b.x, a.y + b.y, a.z + b.z⟩⟩

instance : Sub Vec3 :=
  ⟨fun a b => ⟨a.x - b.x, a.y - b.y, a.z - b.z⟩⟩

instance : Neg Vec3 :=
  ⟨fun a => ⟨-a.x, -a.y, -a.z⟩⟩

instance : SMul ℚ Vec3 :=
  ⟨fun c a => ⟨c * a.x, c * a.y, c * a.z⟩⟩

instance : Zero Vec3 :=
  ⟨⟨0, 0, 0⟩⟩

@[simp] theorem Vec3.add_def (a b : Vec3) :
    a + b = ⟨a.x + b.x, a.y + b.y, a.z + b.z⟩ := rfl

@[simp] theorem Vec3.sub_def (a b : Vec3) :
    a - b = ⟨a.x - b.x, a.y - b.y, a.z - b.z⟩ := rfl

@[simp] theorem Vec3.smul_def (c : ℚ) (a : Vec3) :
    c • a = ⟨c * a.x, c * a.y, c * a.z⟩ := rfl

@[simp] theorem Vec3.zero_def : (0 : Vec3) = ⟨0, 0, 0⟩ := rfl

/-- Dot product (embedding of `THREE.Vector3.dot`). -/
def Vec3.dot (a b : Vec3) : ℚ :=
  a.x * b.x + a.y * b.y + a.z * b.z

/-- Squared Euclidean length (embedding of `THREE.Vector3.lengthSq`). -/
def Vec3.normSq (a : Vec3) : ℚ :=
  Vec3.dot a a

/-- Euclidean length (embedding of `THREE.Vector3.length`).  `Rat.sqrt` is
exact whenever the squared length is the square of a rational, which holds
at every concrete state evaluated in this development. -/
def Vec3.length (a : Vec3) : ℚ :=
  Rat.sqrt a.normSq

theorem Vec3.normSq_nonneg (a : Vec3) : 0 ≤ a.normSq := by
  have hx := sq_nonneg a.x
  have hy := sq_nonneg a.y
  have hz := sq_nonneg a.z
  simp only [Vec3.normSq, Vec3.dot]
  nlinarith

/-- Embedding of `reflectVelocity` (cannon.js lines 578-587): reflect a
velocity off a surface with the given restitution and friction.
`reflectedNormal = normalComponent * (-restitution)`,
`reflectedTangent = tangentComponent * (1 - friction)`. -/
def reflectVelocity (velocity normal : Vec3) (restitution friction : ℚ) : Vec3 :=
  let vDotN := Vec3.dot velocity normal
  let normalComponent := vDotN • normal
  let tangentComponent := velocity - normalComponent
  (-restitution) • normalComponent + (1 - friction) • tangentComponent

/-- Projectile life-cycle state tags (the JavaScript strings
`flying`, `bouncing`, `rolling`, `stopped`). -/
inductive PState where
  | flying
  | bouncing
  | rolling
  | stopped
deriving DecidableEq, Repr

/-- A live projectile (the object pushed by `fire`, cannon.js lines
703-713).  `mesh.position` is embedded as `position`; the render-only mesh
orientation is omitted. -/
structure Projectile where
  position : Vec3
  velocity : Vec3
  mass : ℚ
  smokeTimer : ℚ
  state : PState
  bounceCount : ℕ
  slowRollTime : ℚ
  notifiedStabilized : Bool
  launchPosition : Option Vec3
deriving DecidableEq, Repr

/-- A smoke particle (`createSmokeParticle`, cannon.js lines 662-683).
`size` embeds `sprite.scale` and `opacity` embeds `material.opacity`. -/
structure Smoke where
  position : Vec3
  age : ℚ
  size : ℚ
  opacity : ℚ
  drift : Vec3
deriving DecidableEq, Repr

/-- The duck-typed terrain provider consumed by the simulation
(`terrain.getHeightAt`, `terrain.getNormalAt`). -/
structure Terrain where
  getHeightAt : ℚ → ℚ → ℚ
  getNormalAt : ℚ → ℚ → Vec3

/-- The mutable state closed over by `createProjectileSystem`:
the live projectile list, the smoke particle list, the chambered flag
`isLoaded`, and whether an `onBallStabilized` callback is registered. -/
structure SysState where
  projectiles : List Projectile
  smokeParticles : List Smoke
  isLoaded : Bool
  callbackRegistered : Bool
deriving DecidableEq, Repr

/-- Physics constants (cannon.js lines 621-630). -/
structure Physics where
  baseRestitution : ℚ
  friction : ℚ
  rollingFriction : ℚ
  minBounceVelocity : ℚ
  minRollVelocity : ℚ
  slopeFriction : ℚ
  slowRollSpeed : ℚ
  maxSlowRollTime : ℚ

def physics : Physics where
  baseRestitution := 65 / 100
  friction := 35 / 100
  rollingFriction := 5 / 2
  minBounceVelocity := 1 / 2
  minRollVelocity := 1 / 10
  slopeFriction := 2 / 5
  slowRollSpeed := 1 / 2
  maxSlowRollTime := 2

/-- Smoke trail settings (cannon.js lines 650-657). -/
structure SmokeConfig where
  spawnRate : ℚ
  lifetime : ℚ
  startSize : ℚ
  endSize : ℚ
  startOpacity : ℚ
  drift : ℚ

def smokeConfig : SmokeConfig where
  spawnRate := 1 / 50
  lifetime := 2
  startSize := 3 / 10
  endSize := 3 / 2
  startOpacity := 3 / 5
  drift := 1 / 2

/-- `const gravity = new THREE.Vector3(0, -9.81, 0)` (cannon.js line 607). -/
def gravity : Vec3 := ⟨0, -981 / 100, 0⟩

/-- `const ballRadius = 0.15` (cannon.js line 608). -/
def ballRadius : ℚ := 3 / 20

/-- The Hang selection of the shot profile (config.js `SHOT_PROFILE.hang`). -/
inductive Hang where
  | punch
  | carry
  | loft
deriving DecidableEq, Repr

/-- Air drag coefficients from config.js lines 113-118:
`hang: { punch: 0.12, carry: 0.08, loft: 0.05 }`. -/
def hangDragCoefficient : Hang → ℚ
  | Hang.punch => 12 / 100
  | Hang.carry => 8 / 100
  | Hang.loft => 5 / 100

/-- Ground height helper (cannon.js lines 633-638): the terrain height if a
terrain provider is supplied, otherwise `0`. -/
def getGroundHeight (terrain : Option Terrain) (x z : ℚ) : ℚ :=
  match terrain with
  | some t => t.getHeightAt x z
  | none => 0

/-- Ground normal helper (cannon.js lines 641-646): the terrain normal if a
terrain provider is supplied, otherwise `(0, 1, 0)`. -/
def getGroundNormal (terrain : Option Terrain) (x z : ℚ) : Vec3 :=
  match terrain with
  | some t => t.getNormalAt x z
  | none => ⟨0, 1, 0⟩

/-- A flat plane at height `0` with unit up normal, used to compare the
no-terrain fallback against an explicit flat terrain provider. -/
def flatTerrain : Terrain where
  getHeightAt := fun _ _ => 0
  getNormalAt := fun _ _ => ⟨0, 1, 0⟩

/-- Effective restitution of a bounce (cannon.js lines 767-772):
`massRatio = min(mass / 20, 1.5)`,
`speedFactor = max(0.8, 1 - impactSpeed * 0.005)`,
restitution `= baseRestitution * massRatio * speedFactor`, passed to
`reflectVelocity` clamped as `Math.min(restitution, 0.95)`. -/
def effectiveRestitution (mass impactSpeed : ℚ) : ℚ :=
  min (physics.baseRestitution * min (mass / 20) (3 / 2) *
    max (4 / 5) (1 - impactSpeed * (5 / 1000))) (95 / 100)

/-- One airborne tick of a projectile in state `flying` or `bouncing`
(cannon.js lines 732-776): gravity integration, position integration,
smoke-spawn bookkeeping, and the ground event (either a soft landing into
`rolling` or a counted bounce).  Returns the stepped projectile and the
spawn position of a smoke particle when one is emitted this tick.
The JavaScript length comparisons `velocity.length() > 5` is embedded as
`25 < normSq velocity`. -/
def airborneStep (terrain : Option Terrain) (dt : ℚ) (proj : Projectile) :
    Projectile × Option Vec3 :=
  let v1 := proj.velocity + dt • gravity
  let pos1 := proj.position + dt • v1
  let smoke :=
    if 25 < Vec3.normSq v1 then
      let t := proj.smokeTimer + dt
      if smokeConfig.spawnRate ≤ t then ((0 : ℚ), some pos1)
      else (t, (none : Option Vec3))
    else (proj.smokeTimer, (none : Option Vec3))
  let groundHeight := getGroundHeight terrain pos1.x pos1.z
  let floorHeight := groundHeight + ballRadius
  if pos1.y ≤ floorHeight then
    let pos2 : Vec3 := ⟨pos1.x, floorHeight, pos1.z⟩
    let normal := getGroundNormal terrain pos2.x pos2.z
    let vDotN := Vec3.dot v1 normal
    let impactSpeed := |vDotN|
    if impactSpeed < physics.minBounceVelocity then
      let v2 := if vDotN < 0 then v1 - vDotN • normal else v1
      ({ proj with
          position := pos2
          velocity := v2
          smokeTimer := smoke.1
          state := PState.rolling }, smoke.2)
    else
      let v2 := reflectVelocity v1 normal
        (effectiveRestitution proj.mass impactSpeed) physics.friction
      ({ proj with
          position := pos2
          velocity := v2
          smokeTimer := smoke.1
          state := PState.bouncing
          bounceCount := proj.bounceCount + 1 }, smoke.2)
  else
    ({ proj with position := pos1, velocity := v1, smokeTimer := smoke.1 }, smoke.2)

/-- One rolling tick (cannon.js lines 778-841): surface lock, slope
acceleration, removal of the into-surface velocity component, slow-roll
timing, the stop rule, and otherwise rolling friction and movement.
Returns the stepped projectile and whether the stabilized callback was
invoked this tick.  Length comparisons are embedded as squared-length
comparisons: `speed < slowRollSpeed` as `normSq < slowRollSpeed ^ 2`,
`speed < minRollVelocity` as `normSq < minRollVelocity ^ 2`, and
`slopeAccel.length() < minRollVelocity * 2` as
`normSq slopeAccel < (minRollVelocity * 2) ^ 2`. -/
def rollingStep (terrain : Option Terrain) (cbRegistered : Bool) (dt : ℚ)
    (proj : Projectile) : Projectile × Bool :=
  let groundHeight := getGroundHeight terrain proj.position.x proj.position.z
  let normal := getGroundNormal terrain proj.position.x proj.position.z
  let pos1 : Vec3 := ⟨proj.position.x, groundHeight + ballRadius, proj.position.z⟩
  let gravityDotNormal := Vec3.dot gravity normal
  let slopeAccel := gravity - gravityDotNormal • normal
  let v1 := proj.velocity + dt • slopeAccel
  let vDotN := Vec3.dot v1 normal
  let v2 := if vDotN < 0 then v1 - vDotN • normal else v1
  let extraFriction := (1 - normal.y) * physics.slopeFriction
  let slowRollTime :=
    if Vec3.normSq v2 < physics.slowRollSpeed ^ 2 then proj.slowRollTime + dt
    else 0
  let forceStop := physics.maxSlowRollTime ≤ slowRollTime
  if Vec3.normSq v2 < physics.minRollVelocity ^ 2 ∨ forceStop then
    if forceStop ∨ Vec3.normSq slopeAccel < (physics.minRollVelocity * 2) ^ 2 then
      let notified := !proj.notifiedStabilized && cbRegistered
      ({ proj with
          position := pos1
          velocity := 0
          state := PState.stopped
          slowRollTime := slowRollTime
          notifiedStabilized := proj.notifiedStabilized || notified }, notified)
    else
      ({ proj with
          position := pos1
          velocity := v2
          slowRollTime := slowRollTime }, false)
  else
    let speed := Vec3.length v2
    let totalFriction := (physics.rollingFriction + extraFriction) * dt
    let newSpeed := max 0 (speed - totalFriction)
    let scale := if 0 < speed then newSpeed / speed else 0
    let v3 := scale • v2
    let pos2 := pos1 + dt • v3
    let newGroundHeight := getGroundHeight terrain pos2.x pos2.z
    let pos3 : Vec3 := ⟨pos2.x, newGroundHeight + ballRadius, pos2.z⟩
    ({ proj with
        position := pos3
        velocity := v3
        slowRollTime := slowRollTime }, false)

/-- Result of advancing a single projectile by one tick. -/
structure StepResult where
  proj : Projectile
  spawnAt : Option Vec3
  notified : Bool
  removed : Bool
deriving DecidableEq, Repr

/-- One tick of a single projectile inside `update` (cannon.js lines
725-848): `stopped` projectiles are skipped (`continue`), airborne
projectiles run `airborneStep`, projectiles that are (or just became)
`rolling` run `rollingStep`, and finally the out-of-bounds removal check
`position.length() > 1000` (embedded as `1000000 < normSq position`)
marks the projectile for splicing. -/
def stepProjectile (terrain : Option Terrain) (cbRegistered : Bool) (dt : ℚ)
    (proj : Projectile) : StepResult :=
  if proj.state = PState.stopped then
    { proj := proj, spawnAt := none, notified := false, removed := false }
  else
    let afterAir :=
      if proj.state = PState.flying ∨ proj.state = PState.bouncing then
        airborneStep terrain dt proj
      else (proj, none)
    let afterRoll :=
      if afterAir.1.state = PState.rolling then
        rollingStep terrain cbRegistered dt afterAir.1
      else (afterAir.1, false)
    { proj := afterRoll.1
      spawnAt := afterAir.2
      notified := afterRoll.2
      removed := 1000000 < Vec3.normSq afterRoll.1.position }

/-- Size of a smoke particle as a function of its age (cannon.js line 863):
`startSize + (endSize - startSize) * lifeRatio`. -/
def smokeSize (age : ℚ) : ℚ :=
  smokeConfig.startSize +
    (smokeConfig.endSize - smokeConfig.startSize) * (age / smokeConfig.lifetime)

/-- Opacity of a smoke particle as a function of its age (cannon.js line
865): `startOpacity * (1 - lifeRatio)`. -/
def smokeOpacity (age : ℚ) : ℚ :=
  smokeConfig.startOpacity * (1 - age / smokeConfig.lifetime)

/-- A freshly spawned smoke particle (cannon.js lines 662-683), at the
given position with the given random drift vector. -/
def createSmokeParticle (position drift : Vec3) : Smoke where
  position := position
  age := 0
  size := smokeConfig.startSize
  opacity := smokeConfig.startOpacity
  drift := drift

/-- One aging tick of a smoke particle (cannon.js lines 851-867): the age
advances by `dt`; the particle is removed (`none`) once `age >= lifetime`,
otherwise it drifts and its size and opacity are recomputed from the age
fraction. -/
def ageSmoke (dt : ℚ) (smoke : Smoke) : Option Smoke :=
  let age := smoke.age + dt
  if smokeConfig.lifetime ≤ age then none
  else
    some { smoke with
      age := age
      position := smoke.position + dt • smoke.drift
      size := smokeSize age
      opacity := smokeOpacity age }

/-- One simulation tick (`update(dt)`, cannon.js lines 723-868): advance
every projectile, drop the out-of-bounds ones, append the smoke particles
spawned this tick, and age the whole smoke collection (including the fresh
particles, exactly as the source does).  `mkDrift` supplies the random
drift vector of the i-th particle spawned this tick. -/
def update (terrain : Option Terrain) (mkDrift : ℕ → Vec3) (dt : ℚ)
    (s : SysState) : SysState :=
  let results := s.projectiles.map (stepProjectile terrain s.callbackRegistered dt)
  let newSmoke := ((results.filterMap StepResult.spawnAt).enum).map
    (fun p => createSmokeParticle p.2 (mkDrift p.1))
  { s with
    projectiles := (results.filter (fun r => !r.removed)).map StepResult.proj
    smokeParticles := (s.smokeParticles ++ newSmoke).filterMap (ageSmoke dt) }

/-- `fire()` (cannon.js lines 685-721): returns `false` and changes nothing
when not loaded; otherwise pushes a new projectile in state `flying` at the
adapter's muzzle position with velocity `direction * velocity`, records the
launch position, clears the loaded flag, and returns `true`.  The resolved
DOM inputs are passed as `velocity` and `mass`; the muzzle position and
normalized firing direction come from the weapon adapter. -/
def fire (muzzleWorld direction : Vec3) (velocity mass : ℚ) (s : SysState) :
    Bool × SysState :=
  if s.isLoaded = false then (false, s)
  else
    let proj : Projectile :=
      { position := muzzleWorld
        velocity := velocity • direction
        mass := mass
        smokeTimer := 0
        state := PState.flying
        bounceCount := 0
        slowRollTime := 0
        notifiedStabilized := false
        launchPosition := some muzzleWorld }
    (true, { s with projectiles := s.projectiles ++ [proj], isLoaded := false })

/-- `loadCannon()` (cannon.js lines 873-876). -/
def loadCannon (s : SysState) : SysState :=
  { s with isLoaded := true }

/-- `unloadCannon()` (cannon.js lines 877-880). -/
def unloadCannon (s : SysState) : SysState :=
  { s with isLoaded := false }

/-- `onBallStabilized(callback)` (cannon.js lines 889-891): registers the
stabilized callback. -/
def onBallStabilized (s : SysState) : SysState :=
  { s with callbackRegistered := true }

/-- `isBallAvailable()` (cannon.js lines 884-888): `false` when loaded,
otherwise true iff no live projectile is in a state other than `stopped`. -/
def isBallAvailable (s : SysState) : Bool :=
  if s.isLoaded then false
  else
    let hasActiveProjectile :=
      s.projectiles.any (fun p => decide (p.state ≠ PState.stopped))
    !hasActiveProjectile

/-- `getBallDistance()` (cannon.js lines 895-902): `null` when there is no
projectile or the last projectile has no launch position; otherwise
`Math.sqrt(dx * dx + dz * dz)` of the horizontal displacement of the most
recently fired projectile from its launch position. -/
def getBallDistance (s : SysState) : Option ℚ :=
  match s.projectiles.getLast? with
  | none => none
  | some proj =>
    match proj.launchPosition with
    | none => none
    | some lp =>
      let dx := proj.position.x - lp.x
      let dz := proj.position.z - lp.z
      some (Rat.sqrt (dx * dx + dz * dz))

/-- `getBallPosition()` (cannon.js lines 903-907): the position of the most
recently fired projectile, or `null` when there is none. -/
def getBallPosition (s : SysState) : Option Vec3 :=
  match s.projectiles.getLast? with
  | none => none
  | some proj => some proj.position

/-- `isBallStabilized()` (cannon.js lines 908-912): whether the most
recently fired projectile is `stopped`; `false` when there is none. -/
def isBallStabilized (s : SysState) : Bool :=
  match s.projectiles.getLast? with
  | none => false
  | some proj => decide (proj.state = PState.stopped)

/-- `clearProjectiles()` (cannon.js lines 913-918). -/
def clearProjectiles (s : SysState) : SysState :=
  { s with projectiles := [] }

/-! ## Concrete states used as witnesses and counterexamples -/

/-- A drift stream returning the zero vector (a possible value of the
`Math.random()`-based drift). -/
def noDrift : ℕ → Vec3 := fun _ => 0

/-- A terrain provider whose surface normal is the unit vector
`(0.6, 0.8, 0)` everywhere (a steep slope). -/
def steepTerrain : Terrain where
  getHeightAt := fun _ _ => 0
  getNormalAt := fun _ _ => ⟨3 / 5, 4 / 5, 0⟩

/-- A rolling ball on the steep terrain whose slow-roll timer is at the
2-second cap and whose velocity cancels the slope acceleration of the next
`dt = 0.1` tick, leaving a slow residual speed of `0.2`. -/
def steepRollingBall : Projectile where
  position := ⟨0, 3 / 20, 0⟩
  velocity := ⟨-(47088 / 100000), 35316 / 100000, 1 / 5⟩
  mass := 10
  smokeTimer := 0
  state := PState.rolling
  bounceCount := 0
  slowRollTime := 2
  notifiedStabilized := false
  launchPosition := some ⟨0, 3 / 20, 0⟩

/-- A slowly rolling ball on the flat fallback plane. -/
def flatSlowBall : Projectile where
  position := ⟨0, 3 / 20, 0⟩
  velocity := ⟨0, 0, 1 / 20⟩
  mass := 10
  smokeTimer := 0
  state := PState.rolling
  bounceCount := 0
  slowRollTime := 0
  notifiedStabilized := false
  launchPosition := none

/-- A ball falling onto the flat fallback plane fast enough to bounce. -/
def fallingBall : Projectile where
  position := ⟨0, 1 / 5, 0⟩
  velocity := ⟨0, -3, 0⟩
  mass := 10
  smokeTimer := 0
  state := PState.flying
  bounceCount := 0
  slowRollTime := 0
  notifiedStabilized := false
  launchPosition := none

/-- A projectile flying high above the ground, used to probe the airborne
integrator. -/
def dragProbe : Projectile where
  position := ⟨0, 100, 0⟩
  velocity := ⟨0, 10, 0⟩
  mass := 10
  smokeTimer := 0
  state := PState.flying
  bounceCount := 0
  slowRollTime := 0
  notifiedStabilized := false
  launchPosition := some ⟨0, 100, 0⟩

/-- A stopped ball with the stabilized notification already delivered. -/
def restingBall : Projectile where
  position := ⟨7, 3 / 20, 9⟩
  velocity := 0
  mass := 10
  smokeTimer := 0
  state := PState.stopped
  bounceCount := 3
  slowRollTime := 2
  notifiedStabilized := true
  launchPosition := some ⟨0, 1, 0⟩

/-- The result of firing a very fast shot (resolved velocity input 5000)
from a loaded, otherwise empty system. -/
def fastShot : Bool × SysState :=
  fire ⟨0, 1, 0⟩ ⟨1, 0, 0⟩ 5000 10 ⟨[], [], true, false⟩

/-- The fast shot after two `update` ticks of `dt = 0.1` on the flat
fallback plane: the projectile crosses the 1000-unit bounds radius on the
second tick and is removed while still `flying`. -/
def fastShotAfterTwoTicks : SysState :=
  update none noDrift (1 / 10) (update none noDrift (1 / 10) fastShot.2)

/-! ## Theorems -/

theorem Vec3.dot_sq_le_normSq (v n : Vec3) (hn : Vec3.normSq n = 1) :
    (Vec3.dot v n) ^ 2 ≤ Vec3.normSq v := by
  obtain ⟨vx, vy, vz⟩ := v
  obtain ⟨nx, ny, nz⟩ := n
  simp only [Vec3.normSq, Vec3.dot] at hn ⊢
  have h1 : (vx - (vx * nx + vy * ny + vz * nz) * nx) ^ 2 +
      (vy - (vx * nx + vy * ny + vz * nz) * ny) ^ 2 +
      (vz - (vx * nx + vy * ny + vz * nz) * nz) ^ 2 =
      (vx * vx + vy * vy + vz * vz) - (vx * nx + vy * ny + vz * nz) ^ 2 := by
    linear_combination ((vx * nx + vy * ny + vz * nz) ^ 2) * hn
  nlinarith [sq_nonneg (vx - (vx * nx + vy * ny + vz * nz) * nx),
    sq_nonneg (vy - (vx * nx + vy * ny + vz * nz) * ny),
    sq_nonneg (vz - (vx * nx + vy * ny + vz * nz) * nz)]

theorem reflect_normSq (v n : Vec3) (r f : ℚ) (hn : Vec3.normSq n = 1) :
    Vec3.normSq (reflectVelocity v n r f) =
      r ^ 2 * (Vec3.dot v n) ^ 2 +
        (1 - f) ^ 2 * (Vec3.normSq v - (Vec3.dot v n) ^ 2) := by
  obtain ⟨vx, vy, vz⟩ := v
  obtain ⟨nx, ny, nz⟩ := n
  simp only [reflectVelocity, Vec3.normSq, Vec3.dot, Vec3.smul_def,
    Vec3.sub_def, Vec3.add_def] at hn ⊢
  linear_combination ((vx * nx + vy * ny + vz * nz) ^ 2 * (r + (1 - f)) ^ 2) * hn

/-- Claim C2 (corrected): the claim as stated is false, because the
restitution hypothesis only bounds the restitution from above by 1; a
negative restitution below -1 (reachable in the code with a negative mass
input, since `min(mass / 20, 1.5)` is unbounded below) makes the reflected
velocity strictly longer.  Here `v = (0, -2, 0)`, unit normal `(0, 1, 0)`,
restitution `-2 <= 1`, friction `0` in `[0, 1]`, and the reflected velocity
has squared length 16 > 4. -/
theorem bounce_energy_cex :
    Vec3.normSq (⟨0, 1, 0⟩ : Vec3) = 1 ∧ ((-2 : ℚ) ≤ 1) ∧
    ((0 : ℚ) ≤ 0) ∧ ((0 : ℚ) ≤ 1) ∧
    Vec3.normSq (⟨0, -2, 0⟩ : Vec3) <
      Vec3.normSq (reflectVelocity ⟨0, -2, 0⟩ ⟨0, 1, 0⟩ (-2) 0) := by
  norm_num [reflectVelocity, Vec3.normSq, Vec3.dot]

/-- Claim C2 (amended): the effective restitution used by the bounce branch
is at most 0.95; and for every impact velocity `v`, unit surface normal
`n`, restitution `r` with `0 ≤ r ≤ 1` (not merely `r ≤ 1`), and friction
`f` between 0 and 1, the reflected velocity is no longer than the incoming
one: a bounce never increases speed. -/
theorem bounce_energy_nonincrease (v n : Vec3) (r f mass impactSpeed : ℚ)
    (hn : Vec3.normSq n = 1) (hr0 : 0 ≤ r) (hr1 : r ≤ 1)
    (hf0 : 0 ≤ f) (hf1 : f ≤ 1) :
    effectiveRestitution mass impactSpeed ≤ 95 / 100 ∧
    Vec3.normSq (reflectVelocity v n r f) ≤ Vec3.normSq v := by
  constructor
  · exact min_le_right _ _
  · have hkey := reflect_normSq v n r f hn
    have hT := Vec3.dot_sq_le_normSq v n hn
    have hr2 : r ^ 2 ≤ 1 := by nlinarith
    have hf2 : (1 - f) ^ 2 ≤ 1 := by nlinarith
    have ha2 : 0 ≤ (Vec3.dot v n) ^ 2 := sq_nonneg _
    rw [hkey]
    nlinarith [mul_nonneg (by linarith : (0 : ℚ) ≤ 1 - r ^ 2) ha2,
      mul_nonneg (by linarith : (0 : ℚ) ≤ 1 - (1 - f) ^ 2)
        (by linarith : (0 : ℚ) ≤ Vec3.normSq v - (Vec3.dot v n) ^ 2)]

/-- Witness for the amended C2 theorem at `v = (3, -4, 0)`,
`n = (0, 1, 0)`, `r = 1/2`, `f = 1/10`, mass 10, impact speed 4. -/
theorem bounce_energy_nonincrease_witness :
    Vec3.normSq (⟨0, 1, 0⟩ : Vec3) = 1 ∧ ((0 : ℚ) ≤ 1 / 2) ∧
    ((1 / 2 : ℚ) ≤ 1) ∧ ((0 : ℚ) ≤ 1 / 10) ∧ ((1 / 10 : ℚ) ≤ 1) ∧
    (effectiveRestitution 10 4 ≤ 95 / 100 ∧
      Vec3.normSq (reflectVelocity ⟨3, -4, 0⟩ ⟨0, 1, 0⟩ (1 / 2) (1 / 10)) ≤
        Vec3.normSq (⟨3, -4, 0⟩ : Vec3)) :=
  ⟨by norm_num [Vec3.normSq, Vec3.dot], by norm_num, by norm_num, by norm_num,
    by norm_num,
    bounce_energy_nonincrease ⟨3, -4, 0⟩ ⟨0, 1, 0⟩ (1 / 2) (1 / 10) 10 4
      (by norm_num [Vec3.normSq, Vec3.dot]) (by norm_num) (by norm_num)
      (by norm_num) (by norm_num)⟩

/-- Claim C4 (code bug): the airborne integrator applies gravity and then
integrates the position, but never multiplies the velocity by
`exp(-airDragK * dt)`: at the failing input (a flying projectile with
velocity `(0, 10, 0)`, `dt = 0.1`), the post-tick velocity is exactly
`v + gravity * dt = (0, 9.019, 0)`, with no decay factor, even though the
Hang drag coefficients of config.js are positive (e.g. Carry = 0.08).  The
repository's own documentation (ShotProfile.md section 5, and the notes in
drone.js) states that `v *= exp(-airDragK * dt)` is applied after gravity. -/
theorem airborne_no_drag :
    (airborneStep none (1 / 10) dragProbe).1.velocity = ⟨0, 9019 / 1000, 0⟩ ∧
    dragProbe.velocity + ((1 : ℚ) / 10) • gravity = ⟨0, 9019 / 1000, 0⟩ ∧
    (airborneStep none (1 / 10) dragProbe).1.position =
      dragProbe.position + ((1 : ℚ) / 10) • (⟨0, 9019 / 1000, 0⟩ : Vec3) ∧
    0 < hangDragCoefficient Hang.carry := by
  refine ⟨?_, by norm_num [dragProbe, gravity], ?_, by norm_num [hangDragCoefficient]⟩ <;>
    norm_num [airborneStep, dragProbe, gravity, ballRadius, getGroundHeight,
      smokeConfig, physics, Vec3.normSq, Vec3.dot]

/-- Claim C8: with no terrain provider (`terrain = null`), the ground
height is 0 and the surface normal is `(0, 1, 0)` at every query point, and
the whole per-tick simulation coincides with that over an explicit flat
plane at height 0 with up normal, so all collision, bounce and rolling
behaviour is that of such a plane. -/
theorem no_terrain_flat_fallback :
    (∀ x z, getGroundHeight none x z = 0) ∧
    (∀ x z, getGroundNormal none x z = ⟨0, 1, 0⟩) ∧
    (∀ cb dt proj, stepProjectile none cb dt proj =
      stepProjectile (some flatTerrain) cb dt proj) ∧
    (∀ mkDrift dt s, update none mkDrift dt s =
      update (some flatTerrain) mkDrift dt s) := by
  refine ⟨fun x z => rfl, fun x z => rfl, fun cb dt proj => rfl,
    fun mkDrift dt s => rfl⟩

/-- A system state whose only live projectile is the resting (stopped)
ball, with a registered callback. -/
def queryState : SysState := ⟨[restingBall], [], false, true⟩

/-- The empty system state. -/
def emptySys : SysState := ⟨[], [], false, false⟩

/-- A loaded system state with no live projectiles. -/
def loadedSys : SysState := ⟨[], [], true, false⟩

/-- A system state with one live (rolling, hence non-stopped) projectile. -/
def activeSys : SysState := ⟨[flatSlowBall], [], false, true⟩

/-- Claim C10: the lifecycle queries consult only the most recently fired
projectile (the last of the list): on an empty projectile list,
`getBallPosition`, `getBallDistance` and `isBallStabilized` return `none`,
`none` and `false`; otherwise they report the last projectile's position,
whether it is `stopped`, and the horizontal (x-z only) distance between its
current position and its launch position, ignoring any vertical
displacement. -/
theorem lifecycle_queries_last (s : SysState) (l : List Projectile)
    (p : Projectile) (lp : Vec3) :
    (s.projectiles = [] →
      getBallPosition s = none ∧ getBallDistance s = none ∧
      isBallStabilized s = false) ∧
    (s.projectiles = l ++ [p] →
      getBallPosition s = some p.position ∧
      (isBallStabilized s = true ↔ p.state = PState.stopped) ∧
      (p.launchPosition = none → getBallDistance s = none) ∧
      (p.launchPosition = some lp →
        getBallDistance s =
          some (Rat.sqrt ((p.position.x - lp.x) * (p.position.x - lp.x) +
            (p.position.z - lp.z) * (p.position.z - lp.z))))) := by
  constructor
  · intro h
    simp [getBallPosition, getBallDistance, isBallStabilized, h]
  · intro h
    refine ⟨?_, ?_, ?_, ?_⟩
    · simp [getBallPosition, h]
    · simp [isBallStabilized, h]
    · intro hnone
      simp [getBallDistance, h, hnone]
    · intro hsome
      simp [getBallDistance, h, hsome]

/-- Witness for C10 at a one-element projectile list (the resting ball,
launched at `(0, 1, 0)`, resting at `(7, 0.15, 9)`) and at the empty
state. -/
theorem lifecycle_queries_last_witness :
    queryState.projectiles = [] ++ [restingBall] ∧
    restingBall.launchPosition = some ⟨0, 1, 0⟩ ∧
    emptySys.projectiles = [] ∧
    getBallPosition queryState = some restingBall.position ∧
    (isBallStabilized queryState = true ↔ restingBall.state = PState.stopped) ∧
    getBallDistance queryState =
      some (Rat.sqrt ((restingBall.position.x - 0) * (restingBall.position.x - 0) +
        (restingBall.position.z - 0) * (restingBall.position.z - 0))) ∧
    getBallPosition emptySys = none ∧
    getBallDistance emptySys = none ∧
    isBallStabilized emptySys = false := by
  have h := lifecycle_queries_last queryState [] restingBall ⟨0, 1, 0⟩
  have he := lifecycle_queries_last emptySys [] restingBall ⟨0, 1, 0⟩
  obtain ⟨h1, h2, h3, h4⟩ := h.2 rfl
  obtain ⟨e1, e2, e3⟩ := he.1 rfl
  exact ⟨rfl, rfl, rfl, h1, h2, h4 rfl, e1, e2, e3⟩

/-- Claim C1 (amended): if not loaded, `fire` returns `false` and changes
nothing; if loaded, `fire` returns `true`, appends exactly one new
projectile in state `flying`, clears the loaded flag, and makes
`isBallAvailable` false; and `isBallAvailable` is false in every state
containing a non-stopped projectile, so it stays false *while the fired
projectile remains in the live collection* with a state other than
`stopped`.  The original claim's stronger guarantee - that availability
stays false *until that projectile's state becomes `stopped`* - is false:
the out-of-bounds check can silently remove the projectile while still
`flying`, after which `isBallAvailable` turns true although the projectile
never stopped (see the counterexample below). -/
theorem fire_load_invariant (muzzleWorld direction : Vec3)
    (velocity mass : ℚ) (s : SysState) :
    (s.isLoaded = false →
      fire muzzleWorld direction velocity mass s = (false, s)) ∧
    (s.isLoaded = true →
      (fire muzzleWorld direction velocity mass s).1 = true ∧
      (fire muzzleWorld direction velocity mass s).2.projectiles =
        s.projectiles ++
          [{ position := muzzleWorld
             velocity := velocity • direction
             mass := mass
             smokeTimer := 0
             state := PState.flying
             bounceCount := 0
             slowRollTime := 0
             notifiedStabilized := false
             launchPosition := some muzzleWorld }] ∧
      (fire muzzleWorld direction velocity mass s).2.isLoaded = false ∧
      isBallAvailable (fire muzzleWorld direction velocity mass s).2 = false) ∧
    (∀ t : SysState, ∀ p ∈ t.projectiles, p.state ≠ PState.stopped →
      isBallAvailable t = false) := by
  refine ⟨?_, ?_, ?_⟩
  · intro h
    simp [fire, h]
  · intro h
    refine ⟨?_, ?_, ?_, ?_⟩ <;>
      simp [fire, h, isBallAvailable]
  · intro t p hmem hne
    rcases hload : t.isLoaded with _ | _
    · simp [isBallAvailable, hload]
      exact ⟨p, hmem, hne⟩
    · simp [isBallAvailable, hload]

/-- Witness for C1: firing from a loaded empty state, and unavailability of
the ball while a rolling projectile is live. -/
theorem fire_load_invariant_witness :
    loadedSys.isLoaded = true ∧
    emptySys.isLoaded = false ∧
    flatSlowBall ∈ activeSys.projectiles ∧
    flatSlowBall.state ≠ PState.stopped ∧
    (fire ⟨0, 1, 0⟩ ⟨1, 0, 0⟩ 20 10 loadedSys).1 = true ∧
    (fire ⟨0, 1, 0⟩ ⟨1, 0, 0⟩ 20 10 loadedSys).2.isLoaded = false ∧
    isBallAvailable (fire ⟨0, 1, 0⟩ ⟨1, 0, 0⟩ 20 10 loadedSys).2 = false ∧
    fire ⟨0, 1, 0⟩ ⟨1, 0, 0⟩ 20 10 emptySys = (false, emptySys) ∧
    isBallAvailable activeSys = false := by
  have h := fire_load_invariant ⟨0, 1, 0⟩ ⟨1, 0, 0⟩ 20 10 loadedSys
  have he := fire_load_invariant ⟨0, 1, 0⟩ ⟨1, 0, 0⟩ 20 10 emptySys
  obtain ⟨h1, h2, h3, h4⟩ := h.2.1 rfl
  refine ⟨rfl, rfl, by simp [activeSys], by simp [flatSlowBall], h1, h3, h4,
    he.1 rfl, ?_⟩
  exact h.2.2 activeSys flatSlowBall (by simp [activeSys]) (by simp [flatSlowBall])

/-- Claim C3: on every ground event during `flying`/`bouncing` (integrated
position with `position.y <= groundHeight + ballRadius`), the position's y
is clamped to `groundHeight + ballRadius`; with
`impactSpeed = |v . normal|`, an impact speed below 0.5 transitions
directly to `rolling`, removing only the into-surface normal component of
the velocity and counting no bounce; otherwise the state becomes
`bouncing`, the bounce counter increments by one, and the velocity becomes
its reflection with effective restitution
`min(0.65 * min(mass/20, 1.5) * max(0.8, 1 - impactSpeed*0.005), 0.95)`
and friction 0.35. -/
theorem ground_event_response (terrain : Option Terrain) (dt : ℚ)
    (proj : Projectile) (v1 pos1 normal : Vec3)
    (_hair : proj.state = PState.flying ∨ proj.state = PState.bouncing)
    (hv1 : v1 = proj.velocity + dt • gravity)
    (hpos1 : pos1 = proj.position + dt • v1)
    (hn : normal = getGroundNormal terrain pos1.x pos1.z)
    (hground : pos1.y ≤ getGroundHeight terrain pos1.x pos1.z + ballRadius) :
    (airborneStep terrain dt proj).1.position =
      ⟨pos1.x, getGroundHeight terrain pos1.x pos1.z + ballRadius, pos1.z⟩ ∧
    (|Vec3.dot v1 normal| < 1 / 2 →
      (airborneStep terrain dt proj).1.state = PState.rolling ∧
      (airborneStep terrain dt proj).1.bounceCount = proj.bounceCount ∧
      (airborneStep terrain dt proj).1.velocity =
        (if Vec3.dot v1 normal < 0 then v1 - Vec3.dot v1 normal • normal
         else v1)) ∧
    (1 / 2 ≤ |Vec3.dot v1 normal| →
      (airborneStep terrain dt proj).1.state = PState.bouncing ∧
      (airborneStep terrain dt proj).1.bounceCount = proj.bounceCount + 1 ∧
      (airborneStep terrain dt proj).1.velocity =
        reflectVelocity v1 normal
          (min ((65 / 100) * min (proj.mass / 20) (3 / 2) *
            max (4 / 5) (1 - |Vec3.dot v1 normal| * (5 / 1000))) (95 / 100))
          (35 / 100)) := by
  subst hv1
  subst hpos1
  subst hn
  simp only [airborneStep, effectiveRestitution, physics]
  rw [if_pos hground]
  by_cases h2 : |Vec3.dot (proj.velocity + dt • gravity)
      (getGroundNormal terrain (proj.position + dt • (proj.velocity + dt • gravity)).x
        (proj.position + dt • (proj.velocity + dt • gravity)).z)| < 1 / 2
  · rw [if_pos h2]
    refine ⟨rfl, fun _ => ⟨rfl, rfl, rfl⟩, fun hge => ?_⟩
    exact absurd h2 (not_lt.mpr hge)
  · rw [if_neg h2]
    refine ⟨rfl, fun hlt => absurd hlt h2, fun _ => ⟨rfl, rfl, rfl⟩⟩

/-- Witness for C3: the falling ball hits the flat fallback plane at
`dt = 0.1` with integrated velocity `(0, -3.981, 0)` and integrated
position `(0, -0.1981, 0)`, an impact speed of `3.981 >= 0.5`, so it
bounces: the y position is clamped to `0.15`, the bounce counter goes from
0 to 1, and the velocity is the clamped-restitution reflection. -/
theorem ground_event_response_witness :
    (fallingBall.state = PState.flying ∨ fallingBall.state = PState.bouncing) ∧
    (⟨0, -(3981 / 1000), 0⟩ : Vec3) = fallingBall.velocity + (1 / 10 : ℚ) • gravity ∧
    (⟨0, -(1981 / 10000), 0⟩ : Vec3) =
      fallingBall.position + (1 / 10 : ℚ) • (⟨0, -(3981 / 1000), 0⟩ : Vec3) ∧
    (⟨0, 1, 0⟩ : Vec3) = getGroundNormal none (-(1981 / 10000) : ℚ).num 0 ∧
    ((1 : ℚ) / 2 ≤ |Vec3.dot ⟨0, -(3981 / 1000), 0⟩ ⟨0, 1, 0⟩|) ∧
    (airborneStep none (1 / 10) fallingBall).1.position =
      ⟨0, getGroundHeight none 0 0 + ballRadius, 0⟩ ∧
    (airborneStep none (1 / 10) fallingBall).1.state = PState.bouncing ∧
    (airborneStep none (1 / 10) fallingBall).1.bounceCount =
      fallingBall.bounceCount + 1 ∧
    (airborneStep none (1 / 10) fallingBall).1.velocity =
      reflectVelocity ⟨0, -(3981 / 1000), 0⟩ ⟨0, 1, 0⟩
        (min ((65 / 100) * min (fallingBall.mass / 20) (3 / 2) *
          max (4 / 5) (1 - |Vec3.dot ⟨0, -(3981 / 1000), 0⟩ ⟨0, 1, 0⟩| * (5 / 1000)))
          (95 / 100))
        (35 / 100) := by
  have h := ground_event_response none (1 / 10) fallingBall
    ⟨0, -(3981 / 1000), 0⟩ ⟨0, -(1981 / 10000), 0⟩ ⟨0, 1, 0⟩
    (Or.inl rfl)
    (by norm_num [fallingBall, gravity])
    (by norm_num [fallingBall])
    (by norm_num [getGroundNormal])
    (by norm_num [getGroundHeight, ballRadius])
  have himp : (1 : ℚ) / 2 ≤ |Vec3.dot ⟨0, -(3981 / 1000), 0⟩ ⟨0, 1, 0⟩| := by
    norm_num [Vec3.dot, abs_of_nonneg]
  obtain ⟨hb1, hb2, hb3⟩ := h.2.2 himp
  refine ⟨Or.inl rfl, by norm_num [fallingBall, gravity], by norm_num [fallingBall],
    by norm_num [getGroundNormal], himp, ?_, hb1, hb2, hb3⟩
  simpa using h.1

/-- Claim C5 (corrected, counterexample): the claim requires the net
tangential acceleration to be below the sanity threshold for *every*
transition to `stopped`, but the code's slow-roll force stop bypasses that
check.  On the steep terrain (unit normal `(0.6, 0.8, 0)`), the rolling
ball with slow-roll timer at the 2-second cap and post-update speed 0.2
(below the 0.5 slow threshold, above the 0.1 minimum-roll threshold) is
stopped by the code, although the slope acceleration `(4.7088, -3.5316, 0)`
has magnitude far above the 0.2 sanity threshold, so the claim predicts it
remains `rolling`. -/
theorem rolling_stop_rule_cex :
    (rollingStep (some steepTerrain) true (1 / 10) steepRollingBall).1.state =
      PState.stopped ∧
    gravity - Vec3.dot gravity ⟨3 / 5, 4 / 5, 0⟩ • (⟨3 / 5, 4 / 5, 0⟩ : Vec3) =
      ⟨2943 / 625, -(8829 / 2500), 0⟩ ∧
    ¬ Vec3.normSq (⟨2943 / 625, -(8829 / 2500), 0⟩ : Vec3) <
      (physics.minRollVelocity * 2) ^ 2 ∧
    physics.maxSlowRollTime ≤ steepRollingBall.slowRollTime + 1 / 10 := by
  refine ⟨?_, ?_, ?_, ?_⟩
  · norm_num [rollingStep, steepTerrain, steepRollingBall, getGroundHeight,
      getGroundNormal, gravity, ballRadius, physics, Vec3.dot, Vec3.normSq]
  · norm_num [gravity, Vec3.dot]
  · norm_num [Vec3.normSq, Vec3.dot, physics]
  · norm_num [steepRollingBall, physics]

/-- Claim C5 (amended): a rolling projectile transitions to `stopped` on an
`update(dt)` tick exactly when (its post-update squared speed is below the
minimum-roll threshold 0.1 squared OR its slow-roll timer has reached the
2-second cap) AND (the timer has reached the cap OR the squared magnitude
of the net tangential slope acceleration is below the 0.2 sanity
threshold squared); the acceleration sanity check applies only to the
low-speed stop, not to the timer force stop.  Otherwise it remains
`rolling`. -/
theorem rolling_stop_rule (terrain : Option Terrain) (cb : Bool) (dt : ℚ)
    (proj : Projectile) (normal slopeAccel v1 v2 : Vec3) (srt : ℚ)
    (hroll : proj.state = PState.rolling)
    (hn : normal = getGroundNormal terrain proj.position.x proj.position.z)
    (hsa : slopeAccel = gravity - Vec3.dot gravity normal • normal)
    (hv1 : v1 = proj.velocity + dt • slopeAccel)
    (hv2 : v2 = (if Vec3.dot v1 normal < 0 then v1 - Vec3.dot v1 normal • normal
                 else v1))
    (hsrt : srt = (if Vec3.normSq v2 < physics.slowRollSpeed ^ 2 then
                     proj.slowRollTime + dt
                   else 0)) :
    (rollingStep terrain cb dt proj).1.state =
      (if (Vec3.normSq v2 < physics.minRollVelocity ^ 2 ∨
            physics.maxSlowRollTime ≤ srt) ∧
          (physics.maxSlowRollTime ≤ srt ∨
            Vec3.normSq slopeAccel < (physics.minRollVelocity * 2) ^ 2)
       then PState.stopped else PState.rolling) := by
  simp only [rollingStep]
  rw [← hn]
  rw [← hsa]
  rw [← hv1]
  rw [← hv2]
  rw [← hsrt]
  split_ifs with h1 h2 h3
  all_goals try rfl
  all_goals try simp [hroll]
  all_goals tauto

/-- Witness for the amended C5 theorem: the slowly rolling ball on the flat
fallback plane (speed 0.05, zero slope acceleration) stops on the next
`dt = 0.1` tick via the low-speed rule. -/
theorem rolling_stop_rule_witness :
    flatSlowBall.state = PState.rolling ∧
    (⟨0, 1, 0⟩ : Vec3) =
      getGroundNormal none flatSlowBall.position.x flatSlowBall.position.z ∧
    (⟨0, 0, 0⟩ : Vec3) = gravity - Vec3.dot gravity ⟨0, 1, 0⟩ • (⟨0, 1, 0⟩ : Vec3) ∧
    (⟨0, 0, 1 / 20⟩ : Vec3) = flatSlowBall.velocity + (1 / 10 : ℚ) • (⟨0, 0, 0⟩ : Vec3) ∧
    (⟨0, 0, 1 / 20⟩ : Vec3) =
      (if Vec3.dot ⟨0, 0, 1 / 20⟩ ⟨0, 1, 0⟩ < 0 then
        (⟨0, 0, 1 / 20⟩ : Vec3) - Vec3.dot ⟨0, 0, 1 / 20⟩ ⟨0, 1, 0⟩ • ⟨0, 1, 0⟩
      else ⟨0, 0, 1 / 20⟩) ∧
    (1 / 10 : ℚ) =
      (if Vec3.normSq ⟨0, 0, 1 / 20⟩ < physics.slowRollSpeed ^ 2 then
        flatSlowBall.slowRollTime + 1 / 10
      else 0) ∧
    (rollingStep none true (1 / 10) flatSlowBall).1.state =
      (if (Vec3.normSq ⟨0, 0, 1 / 20⟩ < physics.minRollVelocity ^ 2 ∨
            physics.maxSlowRollTime ≤ (1 / 10 : ℚ)) ∧
          (physics.maxSlowRollTime ≤ (1 / 10 : ℚ) ∨
            Vec3.normSq (⟨0, 0, 0⟩ : Vec3) < (physics.minRollVelocity * 2) ^ 2)
       then PState.stopped else PState.rolling) ∧
    (rollingStep none true (1 / 10) flatSlowBall).1.state = PState.stopped := by
  have hn' : (⟨0, 1, 0⟩ : Vec3) =
      getGroundNormal none flatSlowBall.position.x flatSlowBall.position.z := by
    norm_num [getGroundNormal]
  have hsa' : (⟨0, 0, 0⟩ : Vec3) =
      gravity - Vec3.dot gravity ⟨0, 1, 0⟩ • (⟨0, 1, 0⟩ : Vec3) := by
    norm_num [gravity, Vec3.dot]
  have hv1' : (⟨0, 0, 1 / 20⟩ : Vec3) =
      flatSlowBall.velocity + (1 / 10 : ℚ) • (⟨0, 0, 0⟩ : Vec3) := by
    norm_num [flatSlowBall]
  have hv2' : (⟨0, 0, 1 / 20⟩ : Vec3) =
      (if Vec3.dot ⟨0, 0, 1 / 20⟩ ⟨0, 1, 0⟩ < 0 then
        (⟨0, 0, 1 / 20⟩ : Vec3) - Vec3.dot ⟨0, 0, 1 / 20⟩ ⟨0, 1, 0⟩ • ⟨0, 1, 0⟩
      else ⟨0, 0, 1 / 20⟩) := by
    norm_num [Vec3.dot]
  have hsrt' : (1 / 10 : ℚ) =
      (if Vec3.normSq ⟨0, 0, 1 / 20⟩ < physics.slowRollSpeed ^ 2 then
        flatSlowBall.slowRollTime + 1 / 10
      else 0) := by
    norm_num [Vec3.normSq, Vec3.dot, physics, flatSlowBall]
  have h := rolling_stop_rule none true (1 / 10) flatSlowBall
    ⟨0, 1, 0⟩ ⟨0, 0, 0⟩ ⟨0, 0, 1 / 20⟩ ⟨0, 0, 1 / 20⟩ (1 / 10)
    rfl hn' hsa' hv1' hv2' hsrt'
  refine ⟨rfl, hn', hsa', hv1', hv2', hsrt', h, ?_⟩
  rw [h]
  norm_num [physics, Vec3.normSq, Vec3.dot]

/-- Claim C6 (corrected, counterexample): a projectile fired with finite
initial velocity (resolved input 5000) under constant `dt = 0.1` never
reaches `stopped`: on the second tick its position crosses the 1000-unit
bounds radius and it is silently removed from the live set while still
`flying`, so no number of further ticks can ever stabilize it. -/
theorem fast_shot_removed_cex :
    fastShot.1 = true ∧
    fastShot.2.projectiles.map Projectile.state = [PState.flying] ∧
    (update none noDrift (1 / 10) fastShot.2).projectiles.map Projectile.state =
      [PState.flying] ∧
    isBallStabilized (update none noDrift (1 / 10) fastShot.2) = false ∧
    fastShotAfterTwoTicks.projectiles = [] ∧
    isBallStabilized fastShotAfterTwoTicks = false := by
  refine ⟨rfl, rfl, ?_, ?_, ?_, ?_⟩ <;>
    norm_num +decide [fastShotAfterTwoTicks, fastShot, update, stepProjectile,
      airborneStep, fire, getGroundHeight, getGroundNormal, ageSmoke,
      createSmokeParticle, smokeSize, smokeOpacity, smokeConfig, physics,
      gravity, ballRadius, noDrift, isBallStabilized, Vec3.normSq, Vec3.dot]

/-- Claim C6 (amended): repeated `update(dt)` calls do not necessarily
bring a projectile to `stopped`: a projectile whose position exceeds the
1000-unit bounds radius is removed from the live set instead (still
`flying`), and once the live set is empty every further update leaves it
empty and `isBallStabilized` stays `false` forever, so the removed
projectile never reaches `stopped`. -/
theorem removed_shot_never_stabilizes (terrain : Option Terrain)
    (mkDrift : ℕ → Vec3) (dt : ℚ) (s : SysState)
    (h : s.projectiles = []) (n : ℕ) :
    ((update terrain mkDrift dt)^[n] s).projectiles = [] ∧
    isBallStabilized ((update terrain mkDrift dt)^[n] s) = false := by
  induction n generalizing s with
  | zero =>
    exact ⟨h, by simp [isBallStabilized, h]⟩
  | succ n ih =>
    rw [Function.iterate_succ_apply]
    exact ih (update terrain mkDrift dt s) (by simp [update, h])

/-- Witness for the amended C6 theorem at the empty state and three
iterations. -/
theorem removed_shot_never_stabilizes_witness :
    emptySys.projectiles = [] ∧
    ((update none noDrift (1 / 10))^[3] emptySys).projectiles = [] ∧
    isBallStabilized ((update none noDrift (1 / 10))^[3] emptySys) = false := by
  have h := removed_shot_never_stabilizes none noDrift (1 / 10) emptySys rfl 3
  exact ⟨rfl, h.1, h.2⟩

theorem airborneStep_state_cases (terrain : Option Terrain) (dt : ℚ)
    (p : Projectile) :
    (airborneStep terrain dt p).1.state = PState.rolling ∨
    (airborneStep terrain dt p).1.state = PState.bouncing ∨
    (airborneStep terrain dt p).1.state = p.state := by
  simp only [airborneStep]
  split_ifs <;> simp

theorem airborneStep_notifiedStabilized (terrain : Option Terrain) (dt : ℚ)
    (p : Projectile) :
    (airborneStep terrain dt p).1.notifiedStabilized = p.notifiedStabilized := by
  simp only [airborneStep]
  split_ifs <;> rfl

theorem rollingStep_smokeTimer (terrain : Option Terrain) (cb : Bool) (dt : ℚ)
    (p : Projectile) :
    (rollingStep terrain cb dt p).1.smokeTimer = p.smokeTimer := by
  simp only [rollingStep]
  split_ifs <;> rfl

theorem rollingStep_split (terrain : Option Terrain) (cb : Bool) (dt : ℚ)
    (p : Projectile) :
    ((rollingStep terrain cb dt p).1.state = PState.stopped ∧
      (rollingStep terrain cb dt p).1.velocity = 0 ∧
      (rollingStep terrain cb dt p).1.notifiedStabilized =
        (p.notifiedStabilized || (!p.notifiedStabilized && cb)) ∧
      (rollingStep terrain cb dt p).2 = (!p.notifiedStabilized && cb)) ∨
    ((rollingStep terrain cb dt p).1.state = p.state ∧
      (rollingStep terrain cb dt p).1.notifiedStabilized = p.notifiedStabilized ∧
      (rollingStep terrain cb dt p).2 = false) := by
  simp only [rollingStep]
  split_ifs <;> simp

/-- Claim C9: a smoke particle is spawned by a tick only when its
projectile is airborne (`flying`/`bouncing`) and the updated velocity has
squared length above 25 (speed above 5), at most one per tick and only
after at least `spawnRate` seconds of accumulated fast flight time, at the
projectile's integrated position, resetting the spawn timer to 0; an aging
tick removes a particle exactly when its age reaches the fixed lifetime
and otherwise drifts it and recomputes its size and opacity from the age
fraction; the size function increases and the opacity function decreases
monotonically in the age. -/
theorem smoke_lifecycle (terrain : Option Terrain) (cb : Bool) (dt : ℚ)
    (p : Projectile) (pos : Vec3) (sm : Smoke) (a b : ℚ) :
    ((stepProjectile terrain cb dt p).spawnAt = some pos →
      (p.state = PState.flying ∨ p.state = PState.bouncing) ∧
      25 < Vec3.normSq (p.velocity + dt • gravity) ∧
      smokeConfig.spawnRate ≤ p.smokeTimer + dt ∧
      pos = p.position + dt • (p.velocity + dt • gravity) ∧
      (stepProjectile terrain cb dt p).proj.smokeTimer = 0) ∧
    (smokeConfig.lifetime ≤ sm.age + dt → ageSmoke dt sm = none) ∧
    (sm.age + dt < smokeConfig.lifetime →
      ageSmoke dt sm = some { sm with
        age := sm.age + dt
        position := sm.position + dt • sm.drift
        size := smokeSize (sm.age + dt)
        opacity := smokeOpacity (sm.age + dt) }) ∧
    (a ≤ b → smokeSize a ≤ smokeSize b ∧ smokeOpacity b ≤ smokeOpacity a) := by
  refine ⟨?_, ?_, ?_, ?_⟩
  · intro h
    by_cases hs : p.state = PState.stopped
    · simp [stepProjectile, hs] at h
    · by_cases hab : p.state = PState.flying ∨ p.state = PState.bouncing
      · simp only [stepProjectile, if_neg hs, if_pos hab] at h ⊢
        refine ⟨hab, ?_⟩
        have hsm : (if (airborneStep terrain dt p).1.state = PState.rolling then
              rollingStep terrain cb dt (airborneStep terrain dt p).1
            else ((airborneStep terrain dt p).1, false)).1.smokeTimer =
            (airborneStep terrain dt p).1.smokeTimer := by
          split_ifs with hroll
          · exact rollingStep_smokeTimer terrain cb dt _
          · rfl
        rw [hsm]
        by_cases hfast : 25 < Vec3.normSq (p.velocity + dt • gravity)
        · by_cases htimer : smokeConfig.spawnRate ≤ p.smokeTimer + dt
          · simp only [airborneStep, if_pos hfast, if_pos htimer] at h ⊢
            split_ifs at h ⊢ <;>
              simp_all
          · simp only [airborneStep, if_pos hfast, if_neg htimer] at h
            split_ifs at h
        · simp only [airborneStep, if_neg hfast] at h
          split_ifs at h
      · simp [stepProjectile, hs, hab] at h
  · intro h
    simp [ageSmoke, h]
  · intro h
    simp [ageSmoke, not_le.mpr h]
  · intro hab
    constructor
    · simp only [smokeSize, smokeConfig]
      linarith
    · simp only [smokeOpacity, smokeConfig]
      linarith

/-- A smoke particle in the middle of its life. -/
def youngSmoke : Smoke where
  position := ⟨1, 2, 3⟩
  age := 1 / 2
  size := 1
  opacity := 1 / 2
  drift := ⟨1, 0, 0⟩

/-- A smoke particle about to expire. -/
def oldSmoke : Smoke where
  position := ⟨0, 0, 0⟩
  age := 39 / 20
  size := 1
  opacity := 1 / 10
  drift := ⟨0, 0, 0⟩

/-- Witness for C9: the flying probe (speed 10, spawn timer 0) emits one
particle at its integrated position on a `dt = 0.1` tick; the old particle
is removed on the tick where its age reaches the 2-second lifetime; the
young one survives, drifts, grows and fades. -/
theorem smoke_lifecycle_witness :
    (stepProjectile none true (1 / 10) dragProbe).spawnAt =
      some ⟨0, 1009019 / 10000, 0⟩ ∧
    smokeConfig.lifetime ≤ oldSmoke.age + 1 / 10 ∧
    youngSmoke.age + 1 / 10 < smokeConfig.lifetime ∧
    ((0 : ℚ) ≤ 1) ∧
    (dragProbe.state = PState.flying ∨ dragProbe.state = PState.bouncing) ∧
    25 < Vec3.normSq (dragProbe.velocity + (1 / 10 : ℚ) • gravity) ∧
    smokeConfig.spawnRate ≤ dragProbe.smokeTimer + 1 / 10 ∧
    (⟨0, 1009019 / 10000, 0⟩ : Vec3) =
      dragProbe.position + (1 / 10 : ℚ) • (dragProbe.velocity + (1 / 10 : ℚ) • gravity) ∧
    (stepProjectile none true (1 / 10) dragProbe).proj.smokeTimer = 0 ∧
    ageSmoke (1 / 10) oldSmoke = none ∧
    ageSmoke (1 / 10) youngSmoke = some { youngSmoke with
      age := youngSmoke.age + 1 / 10
      position := youngSmoke.position + (1 / 10 : ℚ) • youngSmoke.drift
      size := smokeSize (youngSmoke.age + 1 / 10)
      opacity := smokeOpacity (youngSmoke.age + 1 / 10) } ∧
    smokeSize 0 ≤ smokeSize 1 ∧ smokeOpacity 1 ≤ smokeOpacity 0 := by
  have hspawn : (stepProjectile none true (1 / 10) dragProbe).spawnAt =
      some ⟨0, 1009019 / 10000, 0⟩ := by
    norm_num +decide [stepProjectile, airborneStep, dragProbe, gravity,
      smokeConfig, getGroundHeight, ballRadius, Vec3.normSq, Vec3.dot, physics]
  have h := smoke_lifecycle none true (1 / 10) dragProbe
    ⟨0, 1009019 / 10000, 0⟩ youngSmoke 0 1
  have hold := smoke_lifecycle none true (1 / 10) dragProbe
    ⟨0, 1009019 / 10000, 0⟩ oldSmoke 0 1
  obtain ⟨c1, c2, c3, c4, c5⟩ := h.1 hspawn
  have hmono := h.2.2.2 (by norm_num)
  exact ⟨hspawn, by norm_num [oldSmoke, smokeConfig],
    by norm_num [youngSmoke, smokeConfig], by norm_num,
    c1, c2, c3, c4, c5,
    hold.2.1 (by norm_num [oldSmoke, smokeConfig]),
    h.2.2.1 (by norm_num [youngSmoke, smokeConfig]),
    hmono.1, hmono.2⟩

theorem stepProjectile_core (terrain : Option Terrain) (cb : Bool) (dt : ℚ)
    (p : Projectile) (hne : p.state ≠ PState.stopped) :
    ∃ A : Projectile,
      A.notifiedStabilized = p.notifiedStabilized ∧
      A.state ≠ PState.stopped ∧
      ((A.state = PState.rolling ∧
        (stepProjectile terrain cb dt p).proj = (rollingStep terrain cb dt A).1 ∧
        (stepProjectile terrain cb dt p).notified = (rollingStep terrain cb dt A).2) ∨
       (A.state ≠ PState.rolling ∧
        (stepProjectile terrain cb dt p).proj = A ∧
        (stepProjectile terrain cb dt p).notified = false)) := by
  by_cases hab : p.state = PState.flying ∨ p.state = PState.bouncing
  · refine ⟨(airborneStep terrain dt p).1,
      airborneStep_notifiedStabilized terrain dt p, ?_, ?_⟩
    · intro hst
      rcases airborneStep_state_cases terrain dt p with h | h | h <;>
        rw [h] at hst
      · exact PState.noConfusion hst
      · exact PState.noConfusion hst
      · exact hne hst
    · by_cases hroll : (airborneStep terrain dt p).1.state = PState.rolling
      · left
        refine ⟨hroll, ?_, ?_⟩ <;>
          simp [stepProjectile, if_neg hne, if_pos hab, if_pos hroll]
      · right
        refine ⟨hroll, ?_, ?_⟩ <;>
          simp [stepProjectile, if_neg hne, if_pos hab, if_neg hroll]
  · have hroll : p.state = PState.rolling := by
      cases hp : p.state <;> simp_all
    refine ⟨p, rfl, hne, ?_⟩
    left
    refine ⟨hroll, ?_, ?_⟩ <;>
      simp [stepProjectile, if_neg hne, if_neg hab, hroll]

/-- Claim C7: `stopped` is terminal: a stopped projectile is skipped whole
by the per-tick step (position, velocity, state unchanged; never removed)
and therefore survives any number of `update` iterations unchanged; on the
tick a projectile enters `stopped` its velocity is zeroed; the stabilized
callback fires on a tick exactly when the projectile newly enters
`stopped` with its notified flag still clear and a callback registered
(and that tick sets the flag); and a projectile whose flag is already set
is never notified again. -/
theorem stopped_terminal (terrain : Option Terrain) (cb : Bool)
    (mkDrift : ℕ → Vec3) (dt : ℚ) (s : SysState) (p : Projectile) (n : ℕ) :
    (p.state = PState.stopped →
      stepProjectile terrain cb dt p =
        { proj := p, spawnAt := none, notified := false, removed := false }) ∧
    (p.state = PState.stopped → p ∈ s.projectiles →
      p ∈ ((update terrain mkDrift dt)^[n] s).projectiles) ∧
    (p.state ≠ PState.stopped →
      (stepProjectile terrain cb dt p).proj.state = PState.stopped →
      (stepProjectile terrain cb dt p).proj.velocity = 0) ∧
    (p.state ≠ PState.stopped →
      ((stepProjectile terrain cb dt p).notified = true ↔
        ((stepProjectile terrain cb dt p).proj.state = PState.stopped ∧
          p.notifiedStabilized = false ∧ cb = true))) ∧
    (p.notifiedStabilized = true →
      (stepProjectile terrain cb dt p).proj.notifiedStabilized = true ∧
      (stepProjectile terrain cb dt p).notified = false) := by
  refine ⟨?_, ?_, ?_, ?_, ?_⟩
  · intro h
    simp [stepProjectile, h]
  · intro h hp
    revert hp
    induction n generalizing s with
    | zero =>
      intro hp
      simpa using hp
    | succ n ih =>
      intro hp
      rw [Function.iterate_succ_apply]
      apply ih
      have hstep : stepProjectile terrain s.callbackRegistered dt p =
          { proj := p, spawnAt := none, notified := false, removed := false } := by
        simp [stepProjectile, h]
      simp only [update]
      exact List.mem_map.mpr ⟨stepProjectile terrain s.callbackRegistered dt p,
        List.mem_filter.mpr ⟨List.mem_map_of_mem _ hp, by rw [hstep]; rfl⟩,
        by rw [hstep]⟩
  · intro hne hstop
    obtain ⟨A, hA1, hA2, hcase⟩ := stepProjectile_core terrain cb dt p hne
    rcases hcase with ⟨hroll, hproj, hnot⟩ | ⟨hroll, hproj, hnot⟩
    · rcases rollingStep_split terrain cb dt A with ⟨h1, h2, h3, h4⟩ | ⟨h1, h2, h3⟩
      · rw [hproj]
        exact h2
      · rw [hproj, h1, hroll] at hstop
        exact PState.noConfusion hstop
    · rw [hproj] at hstop
      exact absurd hstop hA2
  · intro hne
    obtain ⟨A, hA1, hA2, hcase⟩ := stepProjectile_core terrain cb dt p hne
    rcases hcase with ⟨hroll, hproj, hnot⟩ | ⟨hroll, hproj, hnot⟩
    · rcases rollingStep_split terrain cb dt A with ⟨h1, h2, h3, h4⟩ | ⟨h1, h2, h3⟩
      · rw [hproj, hnot, h1, h4, hA1]
        simp
      · rw [hproj, hnot, h1, hroll, h3]
        simp
    · rw [hproj, hnot]
      simp [hA2]
  · intro hflag
    by_cases hne : p.state = PState.stopped
    · have hstep : stepProjectile terrain cb dt p =
          { proj := p, spawnAt := none, notified := false, removed := false } := by
        simp [stepProjectile, hne]
      rw [hstep]
      exact ⟨hflag, rfl⟩
    · obtain ⟨A, hA1, hA2, hcase⟩ := stepProjectile_core terrain cb dt p hne
      rcases hcase with ⟨hroll, hproj, hnot⟩ | ⟨hroll, hproj, hnot⟩
      · rcases rollingStep_split terrain cb dt A with ⟨h1, h2, h3, h4⟩ | ⟨h1, h2, h3⟩
        · rw [hproj, hnot, h3, h4, hA1, hflag]
          simp
        · rw [hproj, hnot, h2, h3, hA1]
          exact ⟨hflag, rfl⟩
      · rw [hproj, hnot, hA1]
        exact ⟨hflag, rfl⟩

/-- Witness for C7: the resting (stopped, already notified) ball is skipped
unchanged by the step and survives two full updates of its system; the
slowly rolling ball enters `stopped` on its next tick with velocity zeroed
and fires the callback exactly then; the resting ball is never notified
again. -/
theorem stopped_terminal_witness :
    restingBall.state = PState.stopped ∧
    restingBall ∈ queryState.projectiles ∧
    flatSlowBall.state ≠ PState.stopped ∧
    restingBall.notifiedStabilized = true ∧
    flatSlowBall.notifiedStabilized = false ∧
    stepProjectile none true (1 / 10) restingBall =
      { proj := restingBall, spawnAt := none, notified := false,
        removed := false } ∧
    restingBall ∈ ((update none noDrift (1 / 10))^[2] queryState).projectiles ∧
    (stepProjectile none true (1 / 10) flatSlowBall).proj.state =
      PState.stopped ∧
    (stepProjectile none true (1 / 10) flatSlowBall).proj.velocity = 0 ∧
    (stepProjectile none true (1 / 10) flatSlowBall).notified = true ∧
    (stepProjectile none true (1 / 10) restingBall).proj.notifiedStabilized =
      true ∧
    (stepProjectile none true (1 / 10) restingBall).notified = false := by
  have hstop : (stepProjectile none true (1 / 10) flatSlowBall).proj.state =
      PState.stopped := by
    norm_num +decide [stepProjectile, rollingStep, flatSlowBall,
      getGroundHeight, getGroundNormal, gravity, ballRadius, physics,
      Vec3.normSq, Vec3.dot]
  have h := stopped_terminal none true noDrift (1 / 10) queryState restingBall 2
  have hf := stopped_terminal none true noDrift (1 / 10) queryState flatSlowBall 2
  have hvel := hf.2.2.1 (by decide) hstop
  have hnotif := (hf.2.2.2.1 (by decide)).mpr ⟨hstop, rfl, rfl⟩
  have hflag := h.2.2.2.2 rfl
  exact ⟨rfl, by simp [queryState], by decide, rfl, rfl,
    h.1 rfl, h.2.1 rfl (by simp [queryState]),
    hstop, hvel, hnotif, hflag.1, hflag.2⟩

/-- Claim C1 (corrected, counterexample): after a successful `fire` (the
velocity-5000 shot from the loaded empty system), `isBallAvailable` is
false while the ball flies, but on the second `dt = 0.1` tick the ball
crosses the 1000-unit bounds radius and is silently removed while still
`flying`: the live set becomes empty and `isBallAvailable` turns *true*
although the projectile's state never became `stopped`.  This refutes the
original claim's guarantee that availability stays false *until* the fired
projectile's state becomes `stopped`. -/
theorem fire_availability_cex :
    fastShot.1 = true ∧
    isBallAvailable fastShot.2 = false ∧
    (update none noDrift (1 / 10) fastShot.2).projectiles.map Projectile.state =
      [PState.flying] ∧
    isBallAvailable (update none noDrift (1 / 10) fastShot.2) = false ∧
    fastShotAfterTwoTicks.projectiles = [] ∧
    isBallStabilized fastShotAfterTwoTicks = false ∧
    isBallAvailable fastShotAfterTwoTicks = true := by
  refine ⟨rfl, rfl, ?_, ?_, ?_, ?_, ?_⟩ <;>
    norm_num +decide [fastShotAfterTwoTicks, fastShot, update, stepProjectile,
      airborneStep, fire, getGroundHeight, getGroundNormal, ageSmoke,
      createSmokeParticle, smokeSize, smokeOpacity, smokeConfig, physics,
      gravity, ballRadius, noDrift, isBallStabilized, isBallAvailable,
      Vec3.normSq, Vec3.dot]
